import Mathlib

set_option linter.unusedVariables false

/-!
Shallow embedding of `src/install_ghidra.py` (GhidraMacOS installer).

The script is modelled over an explicit world state:
* the filesystem is an association list from path strings to file data;
* the network is a function from URLs to optional byte contents;
* external library effects (SHA-256 digests, tar/zip parsing, chmod,
  osacompile, the gradle subprocess) are oracles carried in the state,
  so every definition is executable on concrete worlds.

Python functions that can raise are embedded in `Except Err`; a
`try/except` in the source becomes a `match` on the `Except` value.
-/

/-- Bytes of a file, abstracted as a list of naturals. -/
abbrev Bytes := List Nat

/-- Errors raised by the modelled script (Python exceptions). -/
inductive Err where
  | ioError
  | networkError
  | checksumMismatch
  | extractionError
  | chmodError
  | osacompileError
  | indexError
  deriving Repr, DecidableEq

/-- A file on disk: its content, plus whether reading it succeeds
(`readable = false` models an I/O error while reading). -/
structure FileData where
  content : Bytes
  readable : Bool
  deriving Repr, DecidableEq

/-- The filesystem: an association list from paths to file data. -/
structure FS where
  files : List (String × FileData)
  deriving Repr, DecidableEq

namespace FS

/-- Look up a path. -/
def lookup (fs : FS) (p : String) : Option FileData :=
  (fs.files.find? (fun q => q.1 == p)).map (·.2)

/-- `os.path.exists`. -/
def pathExists (fs : FS) (p : String) : Bool :=
  (fs.lookup p).isSome

/-- `os.remove`. -/
def remove (fs : FS) (p : String) : FS :=
  ⟨fs.files.filter (fun q => q.1 != p)⟩

/-- Write (or overwrite) a readable file at `p`. -/
def write (fs : FS) (p : String) (b : Bytes) : FS :=
  ⟨(p, ⟨b, true⟩) :: (fs.remove p).files⟩

end FS

instance {ε α : Type} [DecidableEq ε] [DecidableEq α] :
    DecidableEq (Except ε α)
  | .ok a, .ok b =>
    if h : a = b then .isTrue (congrArg Except.ok h)
    else .isFalse (fun hh => h (Except.ok.inj hh))
  | .ok _, .error _ => .isFalse (fun hh => Except.noConfusion hh)
  | .error _, .ok _ => .isFalse (fun hh => Except.noConfusion hh)
  | .error e, .error f =>
    if h : e = f then .isTrue (congrArg Except.error h)
    else .isFalse (fun hh => h (Except.error.inj hh))

/-- Python truthiness of an optional string argument
(`None` and the empty string are falsy). -/
def truthy : Option String → Bool
  | none => false
  | some s => !s.isEmpty

/-- `calculate_sha256`: open the file and stream it through SHA-256,
re-raising any I/O error.  The digest function `sha` is the model's
oracle for `hashlib.sha256(...).hexdigest()`. -/
def calculate_sha256 (sha : Bytes → String) (fs : FS) (file_path : String) :
    Except Err String :=
  match fs.lookup file_path with
  | none => .error .ioError
  | some f => if f.readable then .ok (sha f.content) else .error .ioError

/-- `verify_checksum`: compare the computed digest to the expected one;
the source catches any exception and returns `False`. -/
def verify_checksum (sha : Bytes → String) (fs : FS) (file_path : String)
    (expected_sha256 : String) : Except Err Bool :=
  match calculate_sha256 sha fs file_path with
  | .ok actual => .ok (actual == expected_sha256)
  | .error _ => .ok false

/-- Events observable during a run (network requests, file removals,
subprocess invocations, copies, warnings). -/
inductive Event where
  | netRequest (url : String)
  | removedFile (path : String)
  | chmodCall (path : String)
  | gradleInvoked
  | copytree (src dst : String)
  | buildWarning
  deriving Repr, DecidableEq

/-- The network: URL to optional content (`none` models a download
failure). -/
structure Net where
  fetch : String → Option Bytes

/-- Result of one `download_file` call: the filesystem after the call,
the events it performed, and the exception it raised, if any. -/
structure DLResult where
  fs : FS
  events : List Event
  err : Option Err
  deriving Repr

/-- The fresh-download part of `download_file`: fetch the URL to
`dest`, then verify when both a digest and a label were supplied; a
mismatch raises. -/
def download_fresh (sha : Bytes → String) (net : Net) (fs : FS)
    (url dest : String) (expected_sha256 file_name : Option String)
    (evs : List Event) : DLResult :=
  match net.fetch url with
  | none => ⟨fs, evs ++ [.netRequest url], some .networkError⟩
  | some b =>
      if truthy expected_sha256 && truthy file_name then
        match verify_checksum sha (fs.write dest b) dest
            (expected_sha256.getD "") with
        | .ok true => ⟨fs.write dest b, evs ++ [.netRequest url], none⟩
        | .ok false =>
            ⟨fs.write dest b, evs ++ [.netRequest url],
             some .checksumMismatch⟩
        | .error e => ⟨fs.write dest b, evs ++ [.netRequest url], some e⟩
      else ⟨fs.write dest b, evs ++ [.netRequest url], none⟩

/-- `download_file`: skip/re-verify a cached file, else download and
verify.  Mirrors the source line by line, including the fall-through
to the download when the destination exists but no digest (or no
label) was supplied. -/
def download_file (sha : Bytes → String) (net : Net) (fs : FS)
    (url dest : String) (expected_sha256 file_name : Option String) :
    DLResult :=
  if fs.pathExists dest then
    if truthy expected_sha256 && truthy file_name then
      match verify_checksum sha fs dest (expected_sha256.getD "") with
      | .ok true => ⟨fs, [], none⟩
      | .ok false =>
          download_fresh sha net (fs.remove dest) url dest
            expected_sha256 file_name [.removedFile dest]
      | .error e => ⟨fs, [], some e⟩
    else
      download_fresh sha net fs url dest expected_sha256 file_name []
  else
    download_fresh sha net fs url dest expected_sha256 file_name []

/-- `os.path.join` for two components, as the source uses it. -/
def pjoin (a b : String) : String := a ++ "/" ++ b

/-- One archive member, viewed as a path: whether it is absolute plus
its slash-separated components (which may include `"."` and `".."`). -/
structure Entry where
  isAbs : Bool
  comps : List String
  deriving Repr, DecidableEq

/-- One step of lexical path resolution relative to the destination
root: track how many levels above the root we are (`up`) and the
components below it (`stack`, most recent first). -/
def resolveStep : Nat × List String → String → Nat × List String
  | (up, stack), c =>
    if c == ".." then
      match stack with
      | [] => (up + 1, [])
      | _ :: rest => (up, rest)
    else if c == "." || c == "" then (up, stack)
    else (up, c :: stack)

/-- Resolve a component list against the destination root. -/
def resolve (comps : List String) : Nat × List String :=
  comps.foldl resolveStep (0, [])

/-- Whether a member escapes the destination directory, as tarfile's
`data` filter decides it: absolute names are rejected, and so is any
name whose lexically resolved path lies above the destination root. -/
def escapes (e : Entry) : Bool :=
  e.isAbs || decide ((resolve e.comps).1 > 0)

/-- The resolved path of a non-escaping member, relative to the
destination, outermost component first. -/
def resolvedComps (e : Entry) : List String :=
  (resolve e.comps).2.reverse

/-- Result of `extractall` with the `data` filter: the members written
before the first rejected member, and the error, if one was raised. -/
structure ExtractResult where
  written : List (List String)
  err : Option Err
  deriving Repr, DecidableEq

/-- `tar_ref.extractall(dest_dir, filter='data')`: members are
processed in order; a member rejected by the filter raises, aborting
the rest; accepted members are written under the destination. -/
def extractEntries : List Entry → ExtractResult
  | [] => ⟨[], none⟩
  | e :: rest =>
    if escapes e then ⟨[], some .extractionError⟩
    else
      let r := extractEntries rest
      ⟨resolvedComps e :: r.written, r.err⟩

/-- `extract_tar_gz`: open the gzip-tar archive at `file_path`
(raising on a missing/unreadable/corrupt file) and extract all
members with the `data` filter; the source re-raises any error.  On
success, returns the written relative paths. -/
def extract_tar_gz (parseTarGz : Bytes → Option (List Entry)) (fs : FS)
    (file_path : String) : Except Err (List (List String)) :=
  match fs.lookup file_path with
  | none => .error .ioError
  | some f =>
    if !f.readable then .error .ioError
    else
      match parseTarGz f.content with
      | none => .error .extractionError
      | some entries =>
        let r := extractEntries entries
        match r.err with
        | some e => .error e
        | none => .ok r.written

/-- zipfile's member-name sanitisation: drop empty, `"."` and `".."`
components (CPython's `_extract_member`). -/
def zipSanitize (e : Entry) : List String :=
  e.comps.filter (fun c => c != "" && c != "." && c != "..")

/-- `extract_zip`: open the zip archive at `file_path` and extract
every member (no traversal filter; zipfile sanitises names itself). -/
def extract_zip (parseZip : Bytes → Option (List Entry)) (fs : FS)
    (file_path : String) : Except Err (List (List String)) :=
  match fs.lookup file_path with
  | none => .error .ioError
  | some f =>
    if !f.readable then .error .ioError
    else
      match parseZip f.content with
      | none => .error .extractionError
      | some entries => .ok (entries.map zipSanitize)

/-- Keep the first occurrence of each string, in order, skipping the
ones already `seen`. -/
def dedupKeepFirstAux : List String → List String → List String
  | [], _ => []
  | x :: xs, seen =>
    if seen.contains x then dedupKeepFirstAux xs seen
    else x :: dedupKeepFirstAux xs (x :: seen)

/-- Keep the first occurrence of each string, in order. -/
def dedupKeepFirst (l : List String) : List String :=
  dedupKeepFirstAux l []

/-- `os.listdir` on a directory freshly populated by an extraction:
the distinct top-level names of the written paths, in write order. -/
def topNames (written : List (List String)) : List String :=
  dedupKeepFirst (written.filterMap List.head?)

/-- Result of a `build_native_binaries` call: the returned boolean and
the events performed. -/
structure BuildResult where
  ok : Bool
  events : List Event
  deriving Repr, DecidableEq

/-- `chmod +x` via `subprocess.run(..., check=True)`: raises
`CalledProcessError` when chmod fails (`add_execute_permissions`
re-raises it).  The chmod invocation itself is recorded as a
`chmodCall` event at each call site. -/
def add_execute_permissions (chmodOk : String → Bool) (file_path : String) :
    Except Err Unit :=
  if chmodOk file_path then .ok () else .error .chmodError

/-- State of the gradle tooling inside the installed ghidra tree,
plus the outcome of running `./gradlew buildNatives` (`none` models
the spawn itself raising, e.g. the wrapper file being absent). -/
structure BuildWorld where
  gradleDirPresent : Bool
  gradlewPresent : Bool
  gradleRun : Option Int

/-- The `try` block of `build_native_binaries`: check the gradle
directory, chmod the wrapper when present, run the build; any step
may raise. -/
def build_native_binaries_try (chmodOk : String → Bool) (w : BuildWorld)
    (ghidra_dir jdk_home : String) : List Event × Except Err Bool :=
  if !w.gradleDirPresent then ([], .ok false)
  else
    if w.gradlewPresent then
      match add_execute_permissions chmodOk
          (pjoin (pjoin (pjoin ghidra_dir "support") "gradle") "gradlew") with
      | .error e =>
          ([.chmodCall (pjoin (pjoin (pjoin ghidra_dir "support") "gradle")
              "gradlew")], .error e)
      | .ok _ =>
          match w.gradleRun with
          | none =>
              ([.chmodCall (pjoin (pjoin (pjoin ghidra_dir "support")
                  "gradle") "gradlew"), .gradleInvoked], .error .ioError)
          | some r =>
              ([.chmodCall (pjoin (pjoin (pjoin ghidra_dir "support")
                  "gradle") "gradlew"), .gradleInvoked], .ok (r == 0))
    else
      match w.gradleRun with
      | none => ([.gradleInvoked], .error .ioError)
      | some r => ([.gradleInvoked], .ok (r == 0))

/-- `build_native_binaries`: the body above wrapped in
`except Exception: return False`. -/
def build_native_binaries (chmodOk : String → Bool) (w : BuildWorld)
    (ghidra_dir jdk_home : String) : BuildResult :=
  match build_native_binaries_try chmodOk w ghidra_dir jdk_home with
  | (evs, .ok b) => ⟨b, evs⟩
  | (evs, .error _) => ⟨false, evs⟩

/-- Working directory of the installer (the source joins on `cwd`). -/
def temp_dir : String := "ghidra_install"

/-- Bundle path `Ghidra.app`. -/
def app_dir : String := pjoin temp_dir "Ghidra.app"

/-- Extraction directory for the JDK archive. -/
def jdk_dir : String := pjoin temp_dir "jdk"

/-- Extraction directory for the Ghidra archive. -/
def ghidra_dir_path : String := pjoin temp_dir "ghidra"

/-- OpenJDK download URL. -/
def java_url : String :=
  "https://download.java.net/java/GA/jdk21.0.2/f2283984656d49d69e91c558476027ac/13/GPL/openjdk-21.0.2_macos-aarch64_bin.tar.gz"

/-- Expected OpenJDK archive digest. -/
def java_expected_sha256 : String :=
  "b3d588e16ec1e0ef9805d8a696591bd518a5cea62567da8f53b5ce32d11d22e4"

/-- Ghidra download URL. -/
def ghidra_url : String :=
  "https://github.com/NationalSecurityAgency/ghidra/releases/download/Ghidra_11.4.2_build/ghidra_11.4.2_PUBLIC_20250826.zip"

/-- Expected Ghidra archive digest. -/
def ghidra_expected_sha256 : String :=
  "795a02076af16257bd6f3f4736c4fc152ce9ff1f95df35cd47e2adc086e037a6"

/-- Launcher script inside the bundle. -/
def launch_script_path : String :=
  pjoin temp_dir "Ghidra.app/Contents/Resources/ghidra/support/launch.sh"

/-- `ghidraRun` script inside the bundle. -/
def ghidra_run_path : String :=
  pjoin temp_dir "Ghidra.app/Contents/Resources/ghidra/ghidraRun"

/-- Destination of the JDK archive download. -/
def jdk_tar_path : String := pjoin temp_dir "openjdk.tar.gz"

/-- Destination of the Ghidra archive download. -/
def ghidra_zip_path : String := pjoin temp_dir "ghidra.zip"

/-- Final JDK location inside the bundle. -/
def jdk_final_app_dir : String :=
  pjoin (pjoin (pjoin app_dir "Contents") "Resources") "jdk"

/-- Final Ghidra location inside the bundle. -/
def ghidra_final_app_dir : String :=
  pjoin (pjoin (pjoin app_dir "Contents") "Resources") "ghidra"

/-- JDK home handed to the gradle build. -/
def jdk_home_path : String :=
  pjoin (pjoin jdk_final_app_dir "Contents") "Home"

/-- Python's `exit(code)`: called with no argument it raises
`SystemExit(None)`, which terminates the process with status 0. -/
def pyExit : Option Nat → Nat
  | none => 0
  | some c => c

/-- The whole ambient world `main` runs in. -/
structure World where
  sha : Bytes → String
  net : Net
  fs0 : FS
  osacompileOk : Bool
  parseTarGz : Bytes → Option (List Entry)
  parseZip : Bytes → Option (List Entry)
  chmodOk : String → Bool
  build : BuildWorld

/-- Result of running `main`: whether the success message was printed,
the process exit status, the events performed, and the final
filesystem. -/
structure MainResult where
  ok : Bool
  exitCode : Nat
  events : List Event
  fs : FS

/-- `main`, second `try` block: Ghidra download/extract/copy, native
build (non-fatal on failure), launcher chmod; any exception prints a
diagnostic and calls `exit()`. -/
def main_phase2 (w : World) (fs : FS) (evs : List Event) : MainResult :=
  let d2 := download_file w.sha w.net fs ghidra_url ghidra_zip_path
      (some ghidra_expected_sha256) (some "Ghidra")
  let evs := evs ++ d2.events
  match d2.err with
  | some _ => ⟨false, pyExit none, evs, d2.fs⟩
  | none =>
    match extract_zip w.parseZip d2.fs ghidra_zip_path with
    | .error _ => ⟨false, pyExit none, evs, d2.fs⟩
    | .ok written =>
      match topNames written with
      | [] => ⟨false, pyExit none, evs, d2.fs⟩
      | first :: _ =>
        let evs := evs ++
          [.copytree (pjoin ghidra_dir_path first) ghidra_final_app_dir]
        let b := build_native_binaries w.chmodOk w.build
            ghidra_final_app_dir jdk_home_path
        let evs := evs ++ b.events ++
          (if b.ok then [] else [.buildWarning])
        match add_execute_permissions w.chmodOk launch_script_path with
        | .error _ =>
            ⟨false, pyExit none,
             evs ++ [.chmodCall launch_script_path], d2.fs⟩
        | .ok _ =>
          match add_execute_permissions w.chmodOk ghidra_run_path with
          | .error _ =>
              ⟨false, pyExit none,
               evs ++ [.chmodCall launch_script_path,
                 .chmodCall ghidra_run_path], d2.fs⟩
          | .ok _ =>
              ⟨true, 0,
               evs ++ [.chmodCall launch_script_path,
                 .chmodCall ghidra_run_path], d2.fs⟩

namespace Installer

/-- `main`, first `try` block: bundle skeleton, JDK download, tar
extraction, copy into the bundle; any exception prints a diagnostic
and calls `exit()`.  On success, control falls into the second block. -/
def main (w : World) : MainResult :=
  if !w.osacompileOk then ⟨false, pyExit none, [], w.fs0⟩
  else
    let d1 := download_file w.sha w.net w.fs0 java_url jdk_tar_path
        (some java_expected_sha256) (some "OpenJDK")
    match d1.err with
    | some _ => ⟨false, pyExit none, d1.events, d1.fs⟩
    | none =>
      match extract_tar_gz w.parseTarGz d1.fs jdk_tar_path with
      | .error _ => ⟨false, pyExit none, d1.events, d1.fs⟩
      | .ok written =>
        match topNames written with
        | [] => ⟨false, pyExit none, d1.events, d1.fs⟩
        | first :: _ =>
          main_phase2 w d1.fs
            (d1.events ++ [.copytree (pjoin jdk_dir first) jdk_final_app_dir])

end Installer

lemma FS.lookup_write_self (fs : FS) (p : String) (b : Bytes) :
    (fs.write p b).lookup p = some ⟨b, true⟩ := by
  simp [FS.write, FS.lookup, List.find?]

lemma calculate_sha256_write_self (sha : Bytes → String) (fs : FS)
    (p : String) (b : Bytes) :
    calculate_sha256 sha (fs.write p b) p = .ok (sha b) := by
  simp [calculate_sha256, FS.lookup_write_self]

lemma verify_checksum_of_lookup (sha : Bytes → String) (fs : FS)
    (p e : String) (b : Bytes) (h : fs.lookup p = some ⟨b, true⟩) :
    verify_checksum sha fs p e = .ok (sha b == e) := by
  simp [verify_checksum, calculate_sha256, h]

lemma verify_checksum_ok_true_iff (sha : Bytes → String) (fs : FS)
    (p e : String) :
    verify_checksum sha fs p e = .ok true ↔
      calculate_sha256 sha fs p = .ok e := by
  unfold verify_checksum
  cases hc : calculate_sha256 sha fs p <;> simp

lemma verify_checksum_total (sha : Bytes → String) (fs : FS)
    (p e : String) : ∃ b, verify_checksum sha fs p e = .ok b := by
  unfold verify_checksum
  cases calculate_sha256 sha fs p <;> exact ⟨_, rfl⟩

lemma download_fresh_events (sha : Bytes → String) (net : Net) (fs : FS)
    (url dest : String) (e fn : Option String) (evs : List Event) :
    (download_fresh sha net fs url dest e fn evs).events =
      evs ++ [.netRequest url] := by
  unfold download_fresh
  repeat' split
  all_goals rfl

lemma download_file_not_exists (sha : Bytes → String) (net : Net) (fs : FS)
    (url dest : String) (e fn : Option String)
    (hex : fs.pathExists dest = false) :
    download_file sha net fs url dest e fn =
      download_fresh sha net fs url dest e fn [] := by
  simp [download_file, hex]

lemma download_file_cached_miss (sha : Bytes → String) (net : Net) (fs : FS)
    (url dest : String) (e fn : Option String)
    (hex : fs.pathExists dest = true)
    (ht : (truthy e && truthy fn) = true)
    (hv : verify_checksum sha fs dest (e.getD "") = .ok false) :
    download_file sha net fs url dest e fn =
      download_fresh sha net (fs.remove dest) url dest e fn
        [.removedFile dest] := by
  simp [download_file, hex, ht, hv]

lemma truthy_both (e fn : String) (he : e.isEmpty = false)
    (hfn : fn.isEmpty = false) :
    (truthy (some e) && truthy (some fn)) = true := by
  simp [truthy, he, hfn]

lemma download_file_cached_hit (sha : Bytes → String) (net : Net) (fs : FS)
    (url dest e fn : String) (b : Bytes)
    (hl : fs.lookup dest = some ⟨b, true⟩) (hsha : sha b = e)
    (he : e.isEmpty = false) (hfn : fn.isEmpty = false) :
    download_file sha net fs url dest (some e) (some fn) = ⟨fs, [], none⟩ := by
  have hex : fs.pathExists dest = true := by simp [FS.pathExists, hl]
  have hv : verify_checksum sha fs dest e = .ok true := by
    rw [verify_checksum_of_lookup sha fs dest e b hl, hsha]
    simp
  simp [download_file, hex, truthy_both e fn he hfn, hv]

lemma download_fresh_verified (sha : Bytes → String) (net : Net) (fs : FS)
    (url dest e fn : String) (evs : List Event)
    (he : e.isEmpty = false) (hfn : fn.isEmpty = false)
    (h : (download_fresh sha net fs url dest (some e) (some fn) evs).err
          = none) :
    calculate_sha256 sha
      (download_fresh sha net fs url dest (some e) (some fn) evs).fs dest
      = .ok e := by
  cases hf : net.fetch url with
  | none => simp [download_fresh, hf] at h
  | some b =>
    have hv : verify_checksum sha (fs.write dest b) dest e
        = .ok (sha b == e) :=
      verify_checksum_of_lookup sha _ dest e b (FS.lookup_write_self fs dest b)
    cases hbe : sha b == e with
    | true =>
      have : sha b = e := by simpa using hbe
      simp [download_fresh, hf, truthy_both e fn he hfn, hv, hbe,
        calculate_sha256_write_self, this]
    | false =>
      simp [download_fresh, hf, truthy_both e fn he hfn, hv, hbe] at h

/-- C1 (amended): for every `download_file` call that supplies both a
(non-empty) expected digest and a (non-empty) file label and returns
without raising, the file at the destination hashes to the expected
digest; and a freshly downloaded file whose digest mismatches makes
the call raise a checksum-verification failure. -/
theorem C1_theorem (sha : Bytes → String) (net : Net) (fs : FS)
    (url dest e fn : String) (he : e.isEmpty = false)
    (hfn : fn.isEmpty = false) :
    ((download_file sha net fs url dest (some e) (some fn)).err = none →
      calculate_sha256 sha
        (download_file sha net fs url dest (some e) (some fn)).fs dest
        = .ok e) ∧
    (∀ b, fs.pathExists dest = false → net.fetch url = some b →
      sha b ≠ e →
      (download_file sha net fs url dest (some e) (some fn)).err
        = some .checksumMismatch) := by
  constructor
  · intro h
    by_cases hex : fs.pathExists dest = true
    · rcases verify_checksum_total sha fs dest e with ⟨vb, hv⟩
      cases vb with
      | true =>
        have hc : calculate_sha256 sha fs dest = .ok e :=
          (verify_checksum_ok_true_iff sha fs dest e).mp hv
        simp [download_file, hex, truthy_both e fn he hfn, hv, hc]
      | false =>
        rw [download_file_cached_miss sha net fs url dest (some e) (some fn)
          hex (truthy_both e fn he hfn) hv] at h ⊢
        exact download_fresh_verified sha net _ url dest e fn _ he hfn h
    · have hex' : fs.pathExists dest = false := by
        simpa using hex
      rw [download_file_not_exists sha net fs url dest _ _ hex'] at h ⊢
      exact download_fresh_verified sha net fs url dest e fn [] he hfn h
  · intro b hex hf hne
    have hv : verify_checksum sha (fs.write dest b) dest e
        = .ok (sha b == e) :=
      verify_checksum_of_lookup sha _ dest e b (FS.lookup_write_self fs dest b)
    have hbe : (sha b == e) = false := by simpa using hne
    simp [download_file, hex, download_fresh, hf,
      truthy_both e fn he hfn, hv, hbe]

/-- C1 counterexample: a call that supplies an expected digest but no
file label downloads the file, skips verification entirely (the
source gates verification on `expected_sha256 and file_name`) and
returns without raising, although the file's digest differs from the
expected one. -/
theorem C1_counterexample :
    (download_file (fun _ => "bb") ⟨fun _ => some [1]⟩ ⟨[]⟩ "u" "d"
      (some "aa") none).err = none ∧
    calculate_sha256 (fun _ => "bb")
      ((download_file (fun _ => "bb") ⟨fun _ => some [1]⟩ ⟨[]⟩ "u" "d"
        (some "aa") none).fs) "d" = .ok "bb" ∧
    ("bb" : String) ≠ "aa" := by decide

/-- C1 witness: on a concrete world the amended theorem yields the
digest guarantee for a completed verified download. -/
theorem C1_witness :
    calculate_sha256 (fun _ => "aa")
      ((download_file (fun _ => "aa") ⟨fun _ => some [1]⟩ ⟨[]⟩ "u" "d"
        (some "aa") (some "L")).fs) "d" = .ok "aa" ∧
    (download_file (fun _ => "bb") ⟨fun _ => some [1]⟩ ⟨[]⟩ "u" "d"
      (some "aa") (some "L")).err = some .checksumMismatch :=
  ⟨(C1_theorem (fun _ => "aa") ⟨fun _ => some [1]⟩ ⟨[]⟩ "u" "d" "aa" "L"
      (by decide) (by decide)).1 (by decide),
   (C1_theorem (fun _ => "bb") ⟨fun _ => some [1]⟩ ⟨[]⟩ "u" "d" "aa" "L"
      (by decide) (by decide)).2 [1] (by decide) (by decide) (by decide)⟩

/-- C3: evaluating `download_file` at the failing input.  With the
destination present and a matching digest supplied the download is
skipped (no events), but with the destination present and **no**
digest supplied the code prints "skipping" yet falls through and
performs the network request anyway, overwriting the file — the
missing early return contradicts the skip message and the spec. -/
theorem C3_theorem :
    (FS.pathExists ⟨[("d", ⟨[1], true⟩)]⟩ "d" = true) ∧
    (download_file (fun _ => "good") ⟨fun _ => some [2]⟩
      ⟨[("d", ⟨[1], true⟩)]⟩ "u" "d" (some "good") (some "L")).events
      = [] ∧
    (download_file (fun _ => "good") ⟨fun _ => some [2]⟩
      ⟨[("d", ⟨[1], true⟩)]⟩ "u" "d" none none).events
      = [.netRequest "u"] ∧
    (download_file (fun _ => "good") ⟨fun _ => some [2]⟩
      ⟨[("d", ⟨[1], true⟩)]⟩ "u" "d" none none).fs.lookup "d"
      = some ⟨[2], true⟩ := by decide

/-- C5 counterexample: on a file whose read raises an I/O error,
`verify_checksum` catches the exception and returns the boolean
`False` — the read error is not surfaced to the caller as a failure
(the result is `.ok false`, not `.error`), even when the expected
digest would have matched. -/
theorem C5_counterexample :
    calculate_sha256 (fun _ => "dd") ⟨[("f", ⟨[], false⟩)]⟩ "f"
      = .error .ioError ∧
    verify_checksum (fun _ => "dd") ⟨[("f", ⟨[], false⟩)]⟩ "f" "dd"
      = .ok false := by decide

/-- C5 (amended): `verify_checksum` always returns a boolean, the
boolean is `true` exactly when the file's computed digest equals the
expected digest (case-sensitive string equality), and any I/O error
while reading makes it return `false` rather than propagate the
error. -/
theorem C5_theorem (sha : Bytes → String) (fs : FS) (p e : String) :
    (∃ b, verify_checksum sha fs p e = .ok b) ∧
    (verify_checksum sha fs p e = .ok true ↔
      calculate_sha256 sha fs p = .ok e) ∧
    (∀ er, calculate_sha256 sha fs p = .error er →
      verify_checksum sha fs p e = .ok false) := by
  refine ⟨verify_checksum_total sha fs p e,
    verify_checksum_ok_true_iff sha fs p e, ?_⟩
  intro er h
  simp [verify_checksum, h]

/-- C5 witness: the amended theorem applied to a concrete unreadable
file. -/
theorem C5_witness :
    verify_checksum (fun _ => "dd") ⟨[("g", ⟨[], false⟩)]⟩ "g" "zz"
      = .ok false :=
  (C5_theorem (fun _ => "dd") ⟨[("g", ⟨[], false⟩)]⟩ "g" "zz").2.2
    .ioError (by decide)

/-- C8: when a fresh download fails verification, the call raises
while leaving the mismatching file at the destination (the error path
deletes nothing), so the filesystem differs from its pre-call state;
a subsequent call's cached-file check removes the bad file and
re-downloads. -/
theorem C8_theorem (sha : Bytes → String) (net net2 : Net) (fs : FS)
    (url dest e fn : String) (b b2 : Bytes)
    (he : e.isEmpty = false) (hfn : fn.isEmpty = false)
    (hex : fs.pathExists dest = false)
    (hf : net.fetch url = some b) (hm : sha b ≠ e)
    (hf2 : net2.fetch url = some b2) (hgood : sha b2 = e) :
    (download_file sha net fs url dest (some e) (some fn)).err
      = some .checksumMismatch ∧
    (download_file sha net fs url dest (some e) (some fn)).fs.lookup dest
      = some ⟨b, true⟩ ∧
    fs.lookup dest = none ∧
    Event.removedFile dest ∈
      (download_file sha net2
        (download_file sha net fs url dest (some e) (some fn)).fs
        url dest (some e) (some fn)).events ∧
    (download_file sha net2
      (download_file sha net fs url dest (some e) (some fn)).fs
      url dest (some e) (some fn)).err = none ∧
    (download_file sha net2
      (download_file sha net fs url dest (some e) (some fn)).fs
      url dest (some e) (some fn)).fs.lookup dest = some ⟨b2, true⟩ := by
  have hbe : (sha b == e) = false := by simpa using hm
  have hv1 : verify_checksum sha (fs.write dest b) dest e
      = .ok (sha b == e) :=
    verify_checksum_of_lookup sha _ dest e b (FS.lookup_write_self fs dest b)
  rw [hbe] at hv1
  have hr1 : download_file sha net fs url dest (some e) (some fn)
      = ⟨fs.write dest b, [.netRequest url], some .checksumMismatch⟩ := by
    rw [download_file_not_exists sha net fs url dest _ _ hex]
    have hv1' : verify_checksum sha (fs.write dest b) dest e
        = .ok (sha b == e) :=
      verify_checksum_of_lookup sha _ dest e b
        (FS.lookup_write_self fs dest b)
    simp [download_fresh, hf, truthy_both e fn he hfn, hv1', hbe]
  have hnone : fs.lookup dest = none := by
    cases hl : fs.lookup dest with
    | none => rfl
    | some v => simp [FS.pathExists, hl] at hex
  have hex2 : (fs.write dest b).pathExists dest = true := by
    simp [FS.pathExists, FS.lookup_write_self]
  have hv2 : verify_checksum sha
      (((fs.write dest b).remove dest).write dest b2) dest e
      = .ok (sha b2 == e) :=
    verify_checksum_of_lookup sha _ dest e b2 (FS.lookup_write_self _ dest b2)
  have hbe2 : (sha b2 == e) = true := by simpa using hgood
  rw [hbe2] at hv2
  have hr2 : download_file sha net2 (fs.write dest b) url dest
      (some e) (some fn)
      = ⟨((fs.write dest b).remove dest).write dest b2,
         [.removedFile dest, .netRequest url], none⟩ := by
    rw [download_file_cached_miss sha net2 (fs.write dest b) url dest
      (some e) (some fn) hex2 (truthy_both e fn he hfn) hv1]
    simp [download_fresh, hf2, truthy_both e fn he hfn, hv2]
  rw [hr1]
  simp [hr2, FS.lookup_write_self, hnone]

/-- C8 witness: the whole non-atomic failure-then-recovery story on a
concrete world. -/
theorem C8_witness :
    (download_file (fun x => if x == [2] then "aa" else "zz")
      ⟨fun _ => some [1]⟩ ⟨[]⟩ "u" "d" (some "aa") (some "L")).err
      = some .checksumMismatch ∧
    (download_file (fun x => if x == [2] then "aa" else "zz")
      ⟨fun _ => some [1]⟩ ⟨[]⟩ "u" "d" (some "aa") (some "L")).fs.lookup "d"
      = some ⟨[1], true⟩ ∧
    (FS.mk []).lookup "d" = none ∧
    Event.removedFile "d" ∈
      (download_file (fun x => if x == [2] then "aa" else "zz")
        ⟨fun _ => some [2]⟩
        (download_file (fun x => if x == [2] then "aa" else "zz")
          ⟨fun _ => some [1]⟩ ⟨[]⟩ "u" "d" (some "aa") (some "L")).fs
        "u" "d" (some "aa") (some "L")).events ∧
    (download_file (fun x => if x == [2] then "aa" else "zz")
      ⟨fun _ => some [2]⟩
      (download_file (fun x => if x == [2] then "aa" else "zz")
        ⟨fun _ => some [1]⟩ ⟨[]⟩ "u" "d" (some "aa") (some "L")).fs
      "u" "d" (some "aa") (some "L")).err = none ∧
    (download_file (fun x => if x == [2] then "aa" else "zz")
      ⟨fun _ => some [2]⟩
      (download_file (fun x => if x == [2] then "aa" else "zz")
        ⟨fun _ => some [1]⟩ ⟨[]⟩ "u" "d" (some "aa") (some "L")).fs
      "u" "d" (some "aa") (some "L")).fs.lookup "d" = some ⟨[2], true⟩ :=
  C8_theorem (fun x => if x == [2] then "aa" else "zz")
    ⟨fun _ => some [1]⟩ ⟨fun _ => some [2]⟩ ⟨[]⟩ "u" "d" "aa" "L" [1] [2]
    (by decide) (by decide) (by decide) (by decide) (by decide)
    (by decide) (by decide)

/-- C6 counterexample: the source checks only that the gradle
*directory* exists, not the wrapper script itself; when the directory
is present but `gradlew` is absent, the invoker still attempts the
invocation (`subprocess.run(["./gradlew", ...])`, whose spawn error is
then caught), contradicting "without attempting to invoke". -/
theorem C6_counterexample :
    (⟨true, false, none⟩ : BuildWorld).gradlewPresent = false ∧
    (build_native_binaries (fun _ => true) ⟨true, false, none⟩ "g" "j").ok
      = false ∧
    (build_native_binaries (fun _ => true) ⟨true, false, none⟩ "g" "j").events
      = [.gradleInvoked] := by decide

/-- C6 (amended): when the gradle support directory is absent the
invoker returns failure without attempting any invocation; when the
directory exists but the wrapper script is absent, it still returns
failure, but only after attempting the invocation (whose spawn error
is caught). -/
theorem C6_theorem (chmodOk : String → Bool) (w : BuildWorld)
    (g j : String) :
    (w.gradleDirPresent = false →
      build_native_binaries chmodOk w g j = ⟨false, []⟩) ∧
    (w.gradleDirPresent = true → w.gradlewPresent = false →
      w.gradleRun = none →
      (build_native_binaries chmodOk w g j).ok = false ∧
      Event.gradleInvoked ∈ (build_native_binaries chmodOk w g j).events) := by
  constructor
  · intro h
    simp [build_native_binaries, build_native_binaries_try, h]
  · intro h1 h2 h3
    simp [build_native_binaries, build_native_binaries_try, h1, h2, h3]

/-- C6 witness: the amended theorem applied to a concrete world with
the gradle directory missing. -/
theorem C6_witness :
    build_native_binaries (fun _ => true) ⟨false, true, some 0⟩ "g" "j"
      = ⟨false, []⟩ ∧
    ((build_native_binaries (fun _ => true) ⟨true, false, none⟩ "h" "j").ok
        = false ∧
      Event.gradleInvoked ∈
        (build_native_binaries (fun _ => true) ⟨true, false, none⟩
          "h" "j").events) :=
  ⟨(C6_theorem (fun _ => true) ⟨false, true, some 0⟩ "g" "j").1 rfl,
   (C6_theorem (fun _ => true) ⟨true, false, none⟩ "h" "j").2 rfl rfl rfl⟩

/-- C9: `build_native_binaries` wraps its whole body in
`except Exception: return False`, so an exception raised by any step
yields the boolean `false` instead of propagating, and the call
returns `true` exactly on the full happy path (gradle directory
present, wrapper chmod succeeding when the wrapper exists, build exit
status zero) — every failure mode returns `false`. -/
theorem C9_theorem (chmodOk : String → Bool) (w : BuildWorld)
    (g j : String) :
    (∀ evs e, build_native_binaries_try chmodOk w g j = (evs, .error e) →
      build_native_binaries chmodOk w g j = ⟨false, evs⟩) ∧
    ((build_native_binaries chmodOk w g j).ok = true ↔
      (w.gradleDirPresent = true ∧
       (w.gradlewPresent = true →
         chmodOk (pjoin (pjoin (pjoin g "support") "gradle") "gradlew")
           = true) ∧
       w.gradleRun = some 0)) := by
  constructor
  · intro evs e h
    simp [build_native_binaries, h]
  · obtain ⟨gd, gw, gr⟩ := w
    cases gd <;> cases gw <;>
      rcases gr with _ | r <;>
      cases hc : chmodOk (pjoin (pjoin (pjoin g "support") "gradle") "gradlew") <;>
      simp [build_native_binaries, build_native_binaries_try,
        add_execute_permissions, hc]

/-- C9 witness: a chmod failure inside the body is caught and turned
into `false`. -/
theorem C9_witness :
    build_native_binaries (fun _ => false) ⟨true, true, some 0⟩ "g" "j"
      = ⟨false, [.chmodCall "g/support/gradle/gradlew"]⟩ :=
  (C9_theorem (fun _ => false) ⟨true, true, some 0⟩ "g" "j").1
    [.chmodCall "g/support/gradle/gradlew"] .chmodError (by decide)

lemma main_phase2_exitCode (w : World) (fs : FS) (evs : List Event) :
    (main_phase2 w fs evs).exitCode = 0 := by
  simp only [main_phase2]
  repeat' split
  all_goals rfl

lemma main_exitCode (w : World) : (Installer.main w).exitCode = 0 := by
  simp only [Installer.main]
  repeat' split
  all_goals first | rfl | apply main_phase2_exitCode

lemma extract_tar_gz_of (parse : Bytes → Option (List Entry)) (fs : FS)
    (p : String) (b : Bytes) (es : List Entry) (wr : List (List String))
    (hl : fs.lookup p = some ⟨b, true⟩) (hp : parse b = some es)
    (hx : extractEntries es = ⟨wr, none⟩) :
    extract_tar_gz parse fs p = .ok wr := by
  simp [extract_tar_gz, hl, hp, hx]

lemma extract_zip_of (parse : Bytes → Option (List Entry)) (fs : FS)
    (p : String) (b : Bytes) (es : List Entry)
    (hl : fs.lookup p = some ⟨b, true⟩) (hp : parse b = some es) :
    extract_zip parse fs p = .ok (es.map zipSanitize) := by
  simp [extract_zip, hl, hp]

lemma main_eq_of_cached_jdk (w : World) (b1 : Bytes) (es1 : List Entry)
    (wr1 : List (List String))
    (h1 : w.osacompileOk = true)
    (h2 : w.fs0.lookup jdk_tar_path = some ⟨b1, true⟩)
    (h3 : w.sha b1 = java_expected_sha256)
    (h4 : w.parseTarGz b1 = some es1)
    (h5 : extractEntries es1 = ⟨wr1, none⟩) :
    Installer.main w =
      match topNames wr1 with
      | [] => ⟨false, 0, [], w.fs0⟩
      | n :: _ =>
          main_phase2 w w.fs0
            [.copytree (pjoin jdk_dir n) jdk_final_app_dir] := by
  have hd1 : download_file w.sha w.net w.fs0 java_url jdk_tar_path
      (some java_expected_sha256) (some "OpenJDK") = ⟨w.fs0, [], none⟩ :=
    download_file_cached_hit w.sha w.net w.fs0 java_url jdk_tar_path
      java_expected_sha256 "OpenJDK" b1 h2 h3 (by decide) (by decide)
  have hx : extract_tar_gz w.parseTarGz w.fs0 jdk_tar_path = .ok wr1 :=
    extract_tar_gz_of w.parseTarGz w.fs0 jdk_tar_path b1 es1 wr1 h2 h4 h5
  simp only [Installer.main, h1, Bool.not_true, Bool.false_eq_true,
    if_false, hd1, hx]
  cases topNames wr1 <;> simp [pyExit]

lemma main_phase2_eq_of_cached (w : World) (fs : FS) (evs : List Event)
    (b2 : Bytes) (es2 : List Entry) (m : String) (ms : List String)
    (h7 : fs.lookup ghidra_zip_path = some ⟨b2, true⟩)
    (h8 : w.sha b2 = ghidra_expected_sha256)
    (h9 : w.parseZip b2 = some es2)
    (h10 : topNames (es2.map zipSanitize) = m :: ms)
    (hc1 : w.chmodOk launch_script_path = true)
    (hc2 : w.chmodOk ghidra_run_path = true) :
    main_phase2 w fs evs =
      ⟨true, 0,
       evs ++ [.copytree (pjoin ghidra_dir_path m) ghidra_final_app_dir]
           ++ (build_native_binaries w.chmodOk w.build ghidra_final_app_dir
                jdk_home_path).events
           ++ (if (build_native_binaries w.chmodOk w.build
                    ghidra_final_app_dir jdk_home_path).ok then []
               else [.buildWarning])
           ++ [.chmodCall launch_script_path]
           ++ [.chmodCall ghidra_run_path],
       fs⟩ := by
  have hd2 : download_file w.sha w.net fs ghidra_url ghidra_zip_path
      (some ghidra_expected_sha256) (some "Ghidra") = ⟨fs, [], none⟩ :=
    download_file_cached_hit w.sha w.net fs ghidra_url ghidra_zip_path
      ghidra_expected_sha256 "Ghidra" b2 h7 h8 (by decide) (by decide)
  have hz : extract_zip w.parseZip fs ghidra_zip_path
      = .ok (es2.map zipSanitize) :=
    extract_zip_of w.parseZip fs ghidra_zip_path b2 es2 h7 h9
  simp [main_phase2, hd2, hz, h10, add_execute_permissions, hc1, hc2]

lemma main_phase2_eq_of_cached_empty (w : World) (fs : FS)
    (evs : List Event) (b2 : Bytes) (es2 : List Entry)
    (h7 : fs.lookup ghidra_zip_path = some ⟨b2, true⟩)
    (h8 : w.sha b2 = ghidra_expected_sha256)
    (h9 : w.parseZip b2 = some es2)
    (h10 : topNames (es2.map zipSanitize) = []) :
    main_phase2 w fs evs = ⟨false, 0, evs, fs⟩ := by
  have hd2 : download_file w.sha w.net fs ghidra_url ghidra_zip_path
      (some ghidra_expected_sha256) (some "Ghidra") = ⟨fs, [], none⟩ :=
    download_file_cached_hit w.sha w.net fs ghidra_url ghidra_zip_path
      ghidra_expected_sha256 "Ghidra" b2 h7 h8 (by decide) (by decide)
  have hz : extract_zip w.parseZip fs ghidra_zip_path
      = .ok (es2.map zipSanitize) :=
    extract_zip_of w.parseZip fs ghidra_zip_path b2 es2 h7 h9
  simp [main_phase2, hd2, hz, h10, pyExit]

lemma download_file_events_cases (sha : Bytes → String) (net : Net)
    (fs : FS) (url dest : String) (e fn : Option String) :
    (download_file sha net fs url dest e fn).events = [] ∨
    (download_file sha net fs url dest e fn).events = [.netRequest url] ∨
    (download_file sha net fs url dest e fn).events
      = [.removedFile dest, .netRequest url] := by
  unfold download_file
  repeat' split
  all_goals simp [download_fresh_events]

lemma build_events_no_copytree (chmodOk : String → Bool) (w : BuildWorld)
    (g j s d : String) :
    Event.copytree s d ∉ (build_native_binaries chmodOk w g j).events := by
  obtain ⟨gd, gw, gr⟩ := w
  cases gd <;> cases gw <;> rcases gr with _ | r <;>
    cases hc : chmodOk (pjoin (pjoin (pjoin g "support") "gradle") "gradlew") <;>
    simp [build_native_binaries, build_native_binaries_try,
      add_execute_permissions, hc]

lemma main_phase2_events_prefix (w : World) (fs : FS) (evs : List Event) :
    ∀ ev ∈ evs, ev ∈ (main_phase2 w fs evs).events := by
  intro ev hev
  simp only [main_phase2]
  repeat' split
  all_goals simp [hev]

lemma main_phase2_copy_jdk (w : World) (fs : FS) (evs : List Event)
    (s : String)
    (h : Event.copytree s jdk_final_app_dir ∈ (main_phase2 w fs evs).events) :
    Event.copytree s jdk_final_app_dir ∈ evs := by
  have hne : jdk_final_app_dir ≠ ghidra_final_app_dir := by decide
  have hd2 := download_file_events_cases w.sha w.net fs ghidra_url
    ghidra_zip_path (some ghidra_expected_sha256) (some "Ghidra")
  have hbe := fun t => build_events_no_copytree w.chmodOk w.build
    ghidra_final_app_dir jdk_home_path t jdk_final_app_dir
  simp only [main_phase2, add_execute_permissions] at h
  repeat' split at h
  all_goals
    rcases hd2 with h2 | h2 | h2 <;>
      simp_all [List.mem_append]

/-- C4 (amended): on any fatal failure the process terminates early —
nothing after the failing phase runs — but the exit status is 0, not
nonzero, because the source calls `exit()` with no argument (which
raises `SystemExit(None)`); the success path also exits with status 0
after the confirmation message.  Each fatal-failure class is covered:
skeleton creation, JDK download/digest mismatch, JDK extraction,
Ghidra download/digest mismatch, Ghidra extraction (all stop the
corresponding block with no further events), and either launcher
chmod failure (the run stops at the failing chmod without printing
the success message). -/
theorem C4_theorem (w : World) :
    (Installer.main w).exitCode = 0 ∧
    (w.osacompileOk = false →
      (Installer.main w).ok = false ∧ (Installer.main w).events = []) ∧
    (∀ e, w.osacompileOk = true →
      (download_file w.sha w.net w.fs0 java_url jdk_tar_path
        (some java_expected_sha256) (some "OpenJDK")).err = some e →
      (Installer.main w).ok = false ∧
      (Installer.main w).events
        = (download_file w.sha w.net w.fs0 java_url jdk_tar_path
            (some java_expected_sha256) (some "OpenJDK")).events) ∧
    (∀ e, w.osacompileOk = true →
      (download_file w.sha w.net w.fs0 java_url jdk_tar_path
        (some java_expected_sha256) (some "OpenJDK")).err = none →
      extract_tar_gz w.parseTarGz
        (download_file w.sha w.net w.fs0 java_url jdk_tar_path
          (some java_expected_sha256) (some "OpenJDK")).fs jdk_tar_path
        = .error e →
      (Installer.main w).ok = false ∧
      (Installer.main w).events
        = (download_file w.sha w.net w.fs0 java_url jdk_tar_path
            (some java_expected_sha256) (some "OpenJDK")).events) ∧
    (∀ fs evs e,
      (download_file w.sha w.net fs ghidra_url ghidra_zip_path
        (some ghidra_expected_sha256) (some "Ghidra")).err = some e →
      (main_phase2 w fs evs).ok = false ∧
      (main_phase2 w fs evs).events
        = evs ++ (download_file w.sha w.net fs ghidra_url ghidra_zip_path
            (some ghidra_expected_sha256) (some "Ghidra")).events) ∧
    (∀ fs evs e,
      (download_file w.sha w.net fs ghidra_url ghidra_zip_path
        (some ghidra_expected_sha256) (some "Ghidra")).err = none →
      extract_zip w.parseZip
        (download_file w.sha w.net fs ghidra_url ghidra_zip_path
          (some ghidra_expected_sha256) (some "Ghidra")).fs ghidra_zip_path
        = .error e →
      (main_phase2 w fs evs).ok = false ∧
      (main_phase2 w fs evs).events
        = evs ++ (download_file w.sha w.net fs ghidra_url ghidra_zip_path
            (some ghidra_expected_sha256) (some "Ghidra")).events) ∧
    (∀ fs evs written n ns,
      (download_file w.sha w.net fs ghidra_url ghidra_zip_path
        (some ghidra_expected_sha256) (some "Ghidra")).err = none →
      extract_zip w.parseZip
        (download_file w.sha w.net fs ghidra_url ghidra_zip_path
          (some ghidra_expected_sha256) (some "Ghidra")).fs ghidra_zip_path
        = .ok written →
      topNames written = n :: ns →
      w.chmodOk launch_script_path = false →
      (main_phase2 w fs evs).ok = false ∧
      (main_phase2 w fs evs).events
        = evs ++ (download_file w.sha w.net fs ghidra_url ghidra_zip_path
              (some ghidra_expected_sha256) (some "Ghidra")).events
            ++ [.copytree (pjoin ghidra_dir_path n) ghidra_final_app_dir]
            ++ (build_native_binaries w.chmodOk w.build ghidra_final_app_dir
                 jdk_home_path).events
            ++ (if (build_native_binaries w.chmodOk w.build
                    ghidra_final_app_dir jdk_home_path).ok then []
                else [.buildWarning])
            ++ [.chmodCall launch_script_path]) ∧
    (∀ fs evs written n ns,
      (download_file w.sha w.net fs ghidra_url ghidra_zip_path
        (some ghidra_expected_sha256) (some "Ghidra")).err = none →
      extract_zip w.parseZip
        (download_file w.sha w.net fs ghidra_url ghidra_zip_path
          (some ghidra_expected_sha256) (some "Ghidra")).fs ghidra_zip_path
        = .ok written →
      topNames written = n :: ns →
      w.chmodOk launch_script_path = true →
      w.chmodOk ghidra_run_path = false →
      (main_phase2 w fs evs).ok = false ∧
      (main_phase2 w fs evs).events
        = evs ++ (download_file w.sha w.net fs ghidra_url ghidra_zip_path
              (some ghidra_expected_sha256) (some "Ghidra")).events
            ++ [.copytree (pjoin ghidra_dir_path n) ghidra_final_app_dir]
            ++ (build_native_binaries w.chmodOk w.build ghidra_final_app_dir
                 jdk_home_path).events
            ++ (if (build_native_binaries w.chmodOk w.build
                    ghidra_final_app_dir jdk_home_path).ok then []
                else [.buildWarning])
            ++ [.chmodCall launch_script_path,
                .chmodCall ghidra_run_path]) := by
  refine ⟨main_exitCode w, ?_, ?_, ?_, ?_, ?_, ?_, ?_⟩
  · intro h
    simp [Installer.main, h]
  · intro e h1 h2
    simp [Installer.main, h1, h2]
  · intro e h1 h2 h3
    simp [Installer.main, h1, h2, h3]
  · intro fs evs e h2
    simp [main_phase2, h2]
  · intro fs evs e h2 h3
    simp [main_phase2, h2, h3]
  · intro fs evs written n ns h2 h3 h4 hc
    simp [main_phase2, h2, h3, h4, add_execute_permissions, hc]
  · intro fs evs written n ns h2 h3 h4 hc1 hc2
    simp [main_phase2, h2, h3, h4, add_execute_permissions, hc1, hc2]

/-- C10: after each extraction phase the orchestrator installs only
the first entry of the extraction-directory listing.  JDK phase: with
several top-level entries every other entry is silently ignored (the
only copy into the bundle's jdk location has the first entry as
source), and with an empty listing the `[0]` index raises, aborting
the installation before anything further happens.  Ghidra phase:
likewise, the only copy into the bundle's ghidra location has the
first entry of that listing as source, and an empty listing aborts
the run with no ghidra copy at all. -/
theorem C10_theorem (w : World) (b1 : Bytes) (es1 : List Entry)
    (wr1 : List (List String))
    (h1 : w.osacompileOk = true)
    (h2 : w.fs0.lookup jdk_tar_path = some ⟨b1, true⟩)
    (h3 : w.sha b1 = java_expected_sha256)
    (h4 : w.parseTarGz b1 = some es1)
    (h5 : extractEntries es1 = ⟨wr1, none⟩) :
    (topNames wr1 = [] →
      (Installer.main w).ok = false ∧ (Installer.main w).events = []) ∧
    (∀ n ns, topNames wr1 = n :: ns →
      Event.copytree (pjoin jdk_dir n) jdk_final_app_dir
        ∈ (Installer.main w).events ∧
      (∀ s, Event.copytree s jdk_final_app_dir ∈ (Installer.main w).events →
        s = pjoin jdk_dir n)) ∧
    (∀ n ns b2 es2, topNames wr1 = n :: ns →
      w.fs0.lookup ghidra_zip_path = some ⟨b2, true⟩ →
      w.sha b2 = ghidra_expected_sha256 →
      w.parseZip b2 = some es2 →
      topNames (es2.map zipSanitize) = [] →
      (Installer.main w).ok = false ∧
      (∀ s, Event.copytree s ghidra_final_app_dir
        ∉ (Installer.main w).events)) ∧
    (∀ n ns b2 es2 m ms, topNames wr1 = n :: ns →
      w.fs0.lookup ghidra_zip_path = some ⟨b2, true⟩ →
      w.sha b2 = ghidra_expected_sha256 →
      w.parseZip b2 = some es2 →
      topNames (es2.map zipSanitize) = m :: ms →
      w.chmodOk launch_script_path = true →
      w.chmodOk ghidra_run_path = true →
      Event.copytree (pjoin ghidra_dir_path m) ghidra_final_app_dir
        ∈ (Installer.main w).events ∧
      (∀ s, Event.copytree s ghidra_final_app_dir
          ∈ (Installer.main w).events →
        s = pjoin ghidra_dir_path m)) := by
  rw [main_eq_of_cached_jdk w b1 es1 wr1 h1 h2 h3 h4 h5]
  refine ⟨?_, ?_, ?_, ?_⟩
  · intro he
    simp [he, pyExit]
  · intro n ns he
    simp only [he]
    constructor
    · exact main_phase2_events_prefix w w.fs0 _ _ (by simp)
    · intro s hs
      have hmem := main_phase2_copy_jdk w w.fs0 _ s hs
      simpa using hmem
  · intro n ns b2 es2 hn h7 h8 h9 h10
    simp only [hn]
    rw [main_phase2_eq_of_cached_empty w w.fs0 _ b2 es2 h7 h8 h9 h10]
    have hne : ghidra_final_app_dir ≠ jdk_final_app_dir := by decide
    refine ⟨rfl, ?_⟩
    intro s
    simp [hne]
  · intro n ns b2 es2 m ms hn h7 h8 h9 h10 hc1 hc2
    simp only [hn]
    rw [main_phase2_eq_of_cached w w.fs0 _ b2 es2 m ms h7 h8 h9 h10 hc1 hc2]
    have hne : ghidra_final_app_dir ≠ jdk_final_app_dir := by decide
    have hbe := fun t => build_events_no_copytree w.chmodOk w.build
      ghidra_final_app_dir jdk_home_path t ghidra_final_app_dir
    constructor
    · simp
    · intro s hs
      by_cases hok : (build_native_binaries w.chmodOk w.build
          ghidra_final_app_dir jdk_home_path).ok = true <;>
        simp_all [List.mem_append]

/-- C7: a failed native-build phase is non-fatal — the orchestrator
prints a warning, still runs the permission-setting phase on both
launcher scripts, and reaches overall success. -/
theorem C7_theorem (w : World) (b1 b2 : Bytes) (es1 es2 : List Entry)
    (wr1 : List (List String)) (n m : String) (ns ms : List String)
    (h1 : w.osacompileOk = true)
    (h2 : w.fs0.lookup jdk_tar_path = some ⟨b1, true⟩)
    (h3 : w.sha b1 = java_expected_sha256)
    (h4 : w.parseTarGz b1 = some es1)
    (h5 : extractEntries es1 = ⟨wr1, none⟩)
    (h6 : topNames wr1 = n :: ns)
    (h7 : w.fs0.lookup ghidra_zip_path = some ⟨b2, true⟩)
    (h8 : w.sha b2 = ghidra_expected_sha256)
    (h9 : w.parseZip b2 = some es2)
    (h10 : topNames (es2.map zipSanitize) = m :: ms)
    (hb : (build_native_binaries w.chmodOk w.build ghidra_final_app_dir
            jdk_home_path).ok = false)
    (hc1 : w.chmodOk launch_script_path = true)
    (hc2 : w.chmodOk ghidra_run_path = true) :
    (Installer.main w).ok = true ∧
    Event.buildWarning ∈ (Installer.main w).events ∧
    Event.chmodCall launch_script_path ∈ (Installer.main w).events ∧
    Event.chmodCall ghidra_run_path ∈ (Installer.main w).events := by
  rw [main_eq_of_cached_jdk w b1 es1 wr1 h1 h2 h3 h4 h5]
  simp only [h6]
  rw [main_phase2_eq_of_cached w w.fs0 _ b2 es2 m ms h7 h8 h9 h10 hc1 hc2]
  simp [hb]

/-- Digest oracle for the concrete witness worlds: bytes `[1]` hash to
the JDK digest and `[2]` to the Ghidra digest. -/
def shaW : Bytes → String := fun b =>
  if b == [1] then java_expected_sha256
  else if b == [2] then ghidra_expected_sha256
  else "0"

/-- Filesystem with both archives already cached and matching. -/
def fsCachedBoth : FS :=
  ⟨[(jdk_tar_path, ⟨[1], true⟩), (ghidra_zip_path, ⟨[2], true⟩)]⟩

/-- Tar parser oracle: the JDK archive has one member. -/
def parseTarW : Bytes → Option (List Entry) := fun b =>
  if b == [1] then some [⟨false, ["jdk-21.0.2", "bin", "java"]⟩] else none

/-- Zip parser oracle: the Ghidra archive has one member. -/
def parseZipW : Bytes → Option (List Entry) := fun b =>
  if b == [2] then some [⟨false, ["ghidra_11.4.2_PUBLIC", "ghidraRun"]⟩]
  else none

/-- A world where everything succeeds except the native build (the
gradle directory is missing). -/
def worldBuildFail : World :=
  ⟨shaW, ⟨fun _ => none⟩, fsCachedBoth, true, parseTarW, parseZipW,
   fun _ => true, ⟨false, true, some 0⟩⟩

/-- A world where the bundle-skeleton creation fails. -/
def worldSkelFail : World :=
  ⟨shaW, ⟨fun _ => none⟩, fsCachedBoth, false, parseTarW, parseZipW,
   fun _ => true, ⟨true, true, some 0⟩⟩

/-- A world where nothing is cached and the network is down, so the
JDK download raises. -/
def worldDLFail : World :=
  ⟨shaW, ⟨fun _ => none⟩, ⟨[]⟩, true, parseTarW, parseZipW,
   fun _ => true, ⟨true, true, some 0⟩⟩

/-- A world whose cached JDK archive mismatches its digest, and the
network serves the same bad bytes, so the re-download's final
verification raises a checksum mismatch. -/
def worldBadDigest : World :=
  ⟨shaW, ⟨fun u => if u == java_url then some [9] else none⟩,
   ⟨[(jdk_tar_path, ⟨[9], true⟩)]⟩, true, parseTarW, parseZipW,
   fun _ => true, ⟨true, true, some 0⟩⟩

/-- A world whose cached JDK archive is valid but unparseable as a
tar archive, so extraction raises. -/
def worldExtractFail : World :=
  ⟨shaW, ⟨fun _ => none⟩, fsCachedBoth, true, (fun _ => none), parseZipW,
   fun _ => true, ⟨true, true, some 0⟩⟩

/-- A world where every chmod fails, so the permission-setting phase
raises. -/
def worldChmodFail : World :=
  ⟨shaW, ⟨fun _ => none⟩, fsCachedBoth, true, parseTarW, parseZipW,
   fun _ => false, ⟨false, true, some 0⟩⟩

/-- A world whose JDK archive extracts to two top-level entries. -/
def worldMultiTop : World :=
  ⟨shaW, ⟨fun _ => none⟩, fsCachedBoth, true,
   (fun b => if b == [1] then
      some [⟨false, ["a", "x"]⟩, ⟨false, ["b", "y"]⟩] else none),
   parseZipW, fun _ => true, ⟨true, true, some 0⟩⟩

/-- A world whose JDK archive extracts to no entries at all. -/
def worldEmptyJdk : World :=
  ⟨shaW, ⟨fun _ => none⟩, fsCachedBoth, true,
   (fun b => if b == [1] then some [] else none),
   parseZipW, fun _ => true, ⟨true, true, some 0⟩⟩

/-- A world whose Ghidra archive extracts to two top-level entries. -/
def worldGhidraMulti : World :=
  ⟨shaW, ⟨fun _ => none⟩, fsCachedBoth, true, parseTarW,
   (fun b => if b == [2] then
      some [⟨false, ["g1", "x"]⟩, ⟨false, ["g2", "y"]⟩] else none),
   fun _ => true, ⟨false, true, some 0⟩⟩

/-- A world whose Ghidra archive extracts to no entries at all. -/
def worldGhidraEmpty : World :=
  ⟨shaW, ⟨fun _ => none⟩, fsCachedBoth, true, parseTarW,
   (fun b => if b == [2] then some [] else none),
   fun _ => true, ⟨true, true, some 0⟩⟩

/-- C4 counterexample: when the skeleton creation fails, the run
aborts early but the process exit status is 0 — not nonzero as the
claim states — because `exit()` is called without an argument. -/
theorem C4_counterexample :
    (Installer.main worldSkelFail).ok = false ∧
    (Installer.main worldSkelFail).exitCode = 0 := by decide

/-- C4 witness: the amended theorem applied to the concrete failing
world. -/
theorem C4_witness :
    ((Installer.main worldSkelFail).ok = false ∧
      (Installer.main worldSkelFail).events = []) ∧
    ((Installer.main worldDLFail).ok = false ∧
      (Installer.main worldDLFail).events
        = (download_file worldDLFail.sha worldDLFail.net worldDLFail.fs0
            java_url jdk_tar_path (some java_expected_sha256)
            (some "OpenJDK")).events) ∧
    (Installer.main worldBadDigest).ok = false ∧
    (Installer.main worldExtractFail).ok = false ∧
    (main_phase2 worldChmodFail fsCachedBoth []).ok = false :=
  ⟨(C4_theorem worldSkelFail).2.1 rfl,
   (C4_theorem worldDLFail).2.2.1 .networkError rfl (by decide),
   ((C4_theorem worldBadDigest).2.2.1 .checksumMismatch rfl (by decide)).1,
   ((C4_theorem worldExtractFail).2.2.2.1 .extractionError rfl (by decide)
     (by decide)).1,
   ((C4_theorem worldChmodFail).2.2.2.2.2.2.1 fsCachedBoth []
     [["ghidra_11.4.2_PUBLIC", "ghidraRun"]] "ghidra_11.4.2_PUBLIC" []
     (by decide) (by decide) (by decide) (by decide)).1⟩

/-- C7 witness: the non-fatal build failure on a concrete world. -/
theorem C7_witness :
    (Installer.main worldBuildFail).ok = true ∧
    Event.buildWarning ∈ (Installer.main worldBuildFail).events ∧
    Event.chmodCall launch_script_path
      ∈ (Installer.main worldBuildFail).events ∧
    Event.chmodCall ghidra_run_path
      ∈ (Installer.main worldBuildFail).events :=
  C7_theorem worldBuildFail [1] [2]
    [⟨false, ["jdk-21.0.2", "bin", "java"]⟩]
    [⟨false, ["ghidra_11.4.2_PUBLIC", "ghidraRun"]⟩]
    [["jdk-21.0.2", "bin", "java"]]
    "jdk-21.0.2" "ghidra_11.4.2_PUBLIC" [] []
    rfl (by decide) (by decide) (by decide) (by decide) (by decide)
    (by decide) (by decide) (by decide) (by decide) (by decide)
    (by decide) (by decide)

/-- C10 witness: with two top-level entries only the first is copied
into the bundle, and with an empty extraction directory the run
aborts with nothing installed. -/
theorem C10_witness :
    (Event.copytree (pjoin jdk_dir "a") jdk_final_app_dir
      ∈ (Installer.main worldMultiTop).events) ∧
    ((Installer.main worldEmptyJdk).ok = false ∧
      (Installer.main worldEmptyJdk).events = []) ∧
    (Event.copytree (pjoin ghidra_dir_path "g1") ghidra_final_app_dir
      ∈ (Installer.main worldGhidraMulti).events) ∧
    (Installer.main worldGhidraEmpty).ok = false :=
  ⟨((C10_theorem worldMultiTop [1]
      [⟨false, ["a", "x"]⟩, ⟨false, ["b", "y"]⟩]
      [["a", "x"], ["b", "y"]]
      rfl (by decide) (by decide) (by decide) (by decide)).2.1
    "a" ["b"] (by decide)).1,
   (C10_theorem worldEmptyJdk [1] [] []
      rfl (by decide) (by decide) (by decide) (by decide)).1 (by decide),
   ((C10_theorem worldGhidraMulti [1]
      [⟨false, ["jdk-21.0.2", "bin", "java"]⟩]
      [["jdk-21.0.2", "bin", "java"]]
      rfl (by decide) (by decide) (by decide) (by decide)).2.2.2
    "jdk-21.0.2" [] [2] [⟨false, ["g1", "x"]⟩, ⟨false, ["g2", "y"]⟩]
    "g1" ["g2"] (by decide) (by decide) (by decide) (by decide) (by decide)
    rfl rfl).1,
   ((C10_theorem worldGhidraEmpty [1]
      [⟨false, ["jdk-21.0.2", "bin", "java"]⟩]
      [["jdk-21.0.2", "bin", "java"]]
      rfl (by decide) (by decide) (by decide) (by decide)).2.2.1
    "jdk-21.0.2" [] [2] [] (by decide) (by decide) (by decide) (by decide)
    (by decide)).1⟩
